import Mathlib

/-
Shallow embedding of the git-filter-tree rewrite engine
(src/git_filter_tree/tree_filter.py) and its folder-to-submodule policy
(src/git_filter_tree/dir2mod.py), together with theorems settling the
frozen claims about the engine.

Modelling conventions:
- The external content-addressed store (git ls-tree, mktree, cat-file,
  hash-object) is an environment of pure functions (Env); store writes and
  tree listings are logged in an explicit state (St).
- Stateful, fallible Python code runs in M alpha = St -> Except PyErr (alpha x St).
  Exceptions (AttributeError, ValueError, missing-file IO errors) are PyErr
  values; recursion over store content is bounded by explicit fuel, with
  exhaustion as a separate PyErr constructor.
- read_tree parses each git ls-tree line with str.split, producing a Python
  list, while every rewrite operation produces 4-tuples (obj[:] slices and
  tuple literals).  A Python list never compares equal to a tuple, and
  rewrite_tree compares the two kinds directly, so the embedding keeps the
  container tag of each entry (PyEntry).
- The worker pool of filter_tree maps rewrite_root over the given trees; it
  is modelled sequentially, which is faithful for the claims at issue since
  the wrapped computations are deterministic state transformers here.
-/

namespace GitFilterTree

/-- One directory entry value: the four strings mode, kind, content hash and
name, as listed by git ls-tree and consumed by git mktree. -/
structure Entry where
  mode : String
  kind : String
  sha1 : String
  name : String
deriving DecidableEq, Repr

/-- An entry value together with its Python container tag.  read_tree returns
the result of str.split, a list; the rewrite operations return tuples
(obj[:] and tuple literals).  Python == on a list and a tuple is always
False even when the elements agree, which the derived equality mirrors. -/
inductive PyEntry where
  | pyList (val : Entry)
  | pyTuple (val : Entry)
deriving DecidableEq, Repr

/-- The entry value carried by either container kind; indexing such as x[2]
in the sort key works uniformly on both. -/
def PyEntry.val : PyEntry → Entry
  | .pyList e => e
  | .pyTuple e => e

/-- The Object namedtuple of tree_filter.py (lines 15-28): the four entry
fields plus the path attribute assigned by Object.child.  The class defines
no parent attribute and child never assigns one. -/
structure Object where
  mode : String
  kind : String
  sha1 : String
  name : String
  path : List String
deriving DecidableEq, Repr

/-- The plain 4-tuple obj[:] of an Object. -/
def Object.toEntry (o : Object) : Entry := ⟨o.mode, o.kind, o.sha1, o.name⟩

/-- Object.child (tree_filter.py lines 19-22): a fresh Object for one entry of
a tree, with the path extended by the child name. -/
def Object.child (self : Object) (mode kind sha1 name : String) : Object :=
  ⟨mode, kind, sha1, name, self.path ++ [name]⟩

/-- Python exceptions that the modelled code can raise, plus fuel exhaustion
of the bounded recursion. -/
inductive PyErr where
  | attributeError (attr : String)
  | valueError
  | ioError
  | outOfFuel
deriving DecidableEq, Repr

/-- Result of TreeFilter._hash (lines 133-134) on the arguments dir2mod feeds
to its side tables: hash of Dir2Mod.depends of an Object, or hash of None
(dir2mod passes obj.parent, which at the root would be None).  Python hash
values are modelled injectively by the hashed value itself. -/
abbrev HashKey := Option (String × List String)

/-- The mutable world: logged tree listings, logged store writes, the objmap
directory (none when absent, otherwise its files as an association list),
the two dir2mod side tables, and whether the commit rewriter ran. -/
structure St where
  treeReads : List String
  treeWrites : List (List Entry)
  blobWrites : List String
  objmap : Option (List (String × String))
  hasFolder : List HashKey
  hasGitmod : List HashKey
  branchRan : Bool
deriving DecidableEq, Repr

/-- The external interfaces: the content of the object store (read side), the
content hashes the store assigns to newly written objects, and the treemap
directory of dir2mod mapping a folder tree hash to a target commit. -/
structure Env where
  readTree : String → List Entry
  readBlob : String → String
  hashTree : List Entry → String
  hashBlob : String → String
  treemap : String → String

/-- Stateful fallible computations of the embedded code. -/
def M (α : Type) : Type := St → Except PyErr (α × St)

def mpure {α : Type} (a : α) : M α := fun st => .ok (a, st)

def mbind {α β : Type} (x : M α) (f : α → M β) : M β := fun st =>
  match x st with
  | .error e => .error e
  | .ok (a, st') => f a st'

def mthrow {α : Type} (e : PyErr) : M α := fun _ => .error e

def mmapM {α β : Type} (f : α → M β) : List α → M (List β)
  | [] => mpure []
  | a :: as => mbind (f a) fun b => mbind (mmapM f as) fun bs => mpure (b :: bs)

instance {α : Type} [DecidableEq α] : DecidableEq (Except PyErr α) := fun a b =>
  match a, b with
  | .error e₁, .error e₂ =>
      if h : e₁ = e₂ then .isTrue (by rw [h]) else .isFalse (by intro hc; cases hc; exact h rfl)
  | .ok a₁, .ok a₂ =>
      if h : a₁ = a₂ then .isTrue (by rw [h]) else .isFalse (by intro hc; cases hc; exact h rfl)
  | .error _, .ok _ => .isFalse (by intro hc; cases hc)
  | .ok _, .error _ => .isFalse (by intro hc; cases hc)

/-- Reading the attribute obj.parent.  The Object class defines only the four
namedtuple fields and the path attribute, and nothing in the repository ever
assigns parent, so every obj.parent access raises AttributeError at run time.
dir2mod.py reads obj.parent in rewrite_tree (lines 41 and 48), rewrite_file
(line 55) and map_tree (line 62).  Had the attribute existed it would hold the
parent Object, or None at the root, hence the Option result type. -/
def Object.parentAttr (_ : Object) : M (Option Object) :=
  mthrow (.attributeError "parent")

/-- Lexicographic order on code points, as Python compares strings; written
over the character lists so that it evaluates inside the kernel. -/
def strLt : List Char → List Char → Bool
  | [], [] => false
  | [], _ :: _ => true
  | _ :: _, [] => false
  | a :: as, b :: bs =>
      if a.toNat < b.toNat then true
      else if b.toNat < a.toNat then false
      else strLt as bs

def strLe (a b : String) : Bool := !(strLt b.data a.data)

/-- Comparison of two entries by the sort key get_sha1 = x[2]
(tree_filter.py line 107). -/
def shaLe (a b : PyEntry) : Bool := strLe a.val.sha1 b.val.sha1

def ordInsert (e : PyEntry) : List PyEntry → List PyEntry
  | [] => [e]
  | x :: xs => if shaLe e x then e :: x :: xs else x :: ordInsert e xs

/-- Python sorted(entries, key=get_sha1): a stable sort by content hash.
Insertion sort inserting each element before the first element with a greater
or equal key is stable, matching the guarantee of Python sorted. -/
def sortBySha : List PyEntry → List PyEntry
  | [] => []
  | x :: xs => ordInsert x (sortBySha xs)

/-- read_tree (tree_filter.py lines 37-41): git ls-tree on the given hash,
one entry per line, each parsed with str.split into a Python list.  The hash
argument of every call is logged, so an unchanged treeReads component of the
state certifies that no tree was listed. -/
def read_tree (env : Env) (sha1 : String) : M (List PyEntry) := fun st =>
  .ok ((env.readTree sha1).map PyEntry.pyList,
       { st with treeReads := st.treeReads ++ [sha1] })

/-- write_tree (lines 44-48): serializes the entry values line by line and
pipes them to git mktree, returning the content hash the store assigns.  The
serialized values are appended to the write log. -/
def write_tree (env : Env) (entries : List PyEntry) : M String := fun st =>
  .ok (env.hashTree (entries.map PyEntry.val),
       { st with treeWrites := st.treeWrites ++ [entries.map PyEntry.val] })

/-- read_blob (lines 51-53): git cat-file blob, a pure store lookup. -/
def read_blob (env : Env) (sha1 : String) : String := env.readBlob sha1

/-- write_blob (lines 56-58): git hash-object -w, returning the content hash
and logging the written text. -/
def write_blob (env : Env) (text : String) : M String := fun st =>
  .ok (env.hashBlob text, { st with blobWrites := st.blobWrites ++ [text] })

/-- One memoization table of the cached decorator (lines 61-75): the mapping
from hash keys to stored results for a single operation name, plus a counter
of how often the wrapped function body actually executed. -/
structure CacheSt (κ ρ : Type) where
  entries : List (κ × ρ)
  execs : Nat
deriving DecidableEq, Repr

def lookupKey {κ ρ : Type} [DecidableEq κ] (k : κ) : List (κ × ρ) → Option ρ
  | [] => none
  | (k₂, r) :: rest => if k = k₂ then some r else lookupKey k rest

/-- One call through the cached wrapper (lines 68-73): key = self._hash(args);
if the key is absent the wrapped function runs and its result is stored; the
stored value is returned.  Python hash of the dependency key is modelled
injectively by keyOf itself. -/
def cachedCall {α κ ρ : Type} [DecidableEq κ] (func : α → ρ) (keyOf : α → κ)
    (a : α) (c : CacheSt κ ρ) : ρ × CacheSt κ ρ :=
  match lookupKey (keyOf a) c.entries with
  | some r => (r, c)
  | none => (func a, ⟨(keyOf a, func a) :: c.entries, c.execs + 1⟩)

namespace TreeFilter

/-- TreeFilter.depends (lines 129-131): the default dependency key, all entry
metadata plus the location, (obj[:], obj.path). -/
def depends (obj : Object) : Entry × List String := (obj.toEntry, obj.path)

/-- TreeFilter.rewrite_file (lines 125-127): the default blob handler returns
the single 4-tuple obj[:] unchanged. -/
def rewrite_file (obj : Object) : M (List PyEntry) :=
  mpure [PyEntry.pyTuple obj.toEntry]

end TreeFilter

/-- Body of TreeFilter.rewrite_tree (lines 104-114), with the dynamically
dispatched self.map_tree passed in as mt.  It lists the entries of the node,
sorts them by content hash, hands the sorted originals to map_tree, sorts the
result by content hash, and compares: on inequality it writes a new tree,
otherwise it reuses the original hash; it returns the single tuple carrying
the original mode, kind and name with the resulting hash. -/
def rewriteTreeWith (env : Env) (mt : Object → List PyEntry → M (List PyEntry))
    (obj : Object) : M (List PyEntry) :=
  mbind (read_tree env obj.sha1) fun raw =>
  let old_entries := sortBySha raw
  mbind (mt obj old_entries) fun mapped =>
  let new_entries := sortBySha mapped
  mbind (if new_entries ≠ old_entries then write_tree env new_entries
         else mpure obj.sha1) fun sha1 =>
  mpure [PyEntry.pyTuple ⟨obj.mode, obj.kind, sha1, obj.name⟩]

/-- Body of TreeFilter.map_tree (lines 116-118), with the dispatched
self.rewrite_object passed in as recObj: unpacks each entry into its four
fields and flat-maps the rewrite of the corresponding child object. -/
def mapTreeWith (recObj : Object → M (List PyEntry)) (obj : Object)
    (entries : List PyEntry) : M (List PyEntry) :=
  mbind (mmapM (fun e =>
    recObj (obj.child e.val.mode e.val.kind e.val.sha1 e.val.name)) entries) fun ls =>
  mpure ls.flatten

/-- TreeFilter.rewrite_object (lines 120-123): dispatch on the entry kind,
blobs to rewrite_file and everything else to rewrite_tree, here with the
default map_tree.  The fuel bounds the recursion depth through the store. -/
def TreeFilter.rewrite_object (env : Env) : Nat → Object → M (List PyEntry)
  | 0, _ => mthrow .outOfFuel
  | fuel + 1, obj =>
      if obj.kind = "blob" then TreeFilter.rewrite_file obj
      else rewriteTreeWith env (mapTreeWith (TreeFilter.rewrite_object env fuel)) obj

/-- Writing the durable RootMap record, the file objmap/sha1 holding the new
root hash (lines 100-101).  Like open() on a path inside a missing directory,
it fails when the objmap directory does not exist. -/
def writeObjmapEntry (sha1 newSha1 : String) : M Unit := fun st =>
  match st.objmap with
  | some entries => .ok ((), { st with objmap := some (entries ++ [(sha1, newSha1)]) })
  | none => .error .ioError

/-- Body of TreeFilter.rewrite_root (lines 94-102) with the dispatched
self.rewrite_object passed in as recObj: wraps the hash as a tree Object with
empty name and path, rewrites it, destructures the single returned entry
(a non-singleton would raise ValueError at the unpacking), records the old to
new mapping in the objmap directory and returns the new hash.  The strip() of
the already clean identifier is the identity and is omitted. -/
def rewriteRootWith (recObj : Object → M (List PyEntry)) (sha1 : String) : M String :=
  mbind (recObj ⟨"040000", "tree", sha1, "", []⟩) fun res =>
  match res with
  | [e] =>
      mbind (writeObjmapEntry sha1 e.val.sha1) fun _ =>
      mpure e.val.sha1
  | _ => mthrow .valueError

def TreeFilter.rewrite_root (env : Env) (fuel : Nat) (sha1 : String) : M String :=
  rewriteRootWith (TreeFilter.rewrite_object env fuel) sha1

/-- TreeFilter.filter_tree (lines 155-199).  os.makedirs(self.objmap) raises
FileExistsError whenever the directory is already present, empty or not; the
handler prints the conflict diagnostic and returns 1 before any rewriting.
Otherwise the directory is created empty and the worker pool maps the
dispatched rewrite_root over the trees; any worker exception propagates and
aborts the run; on completion the function returns 0. -/
def filter_tree (rr : String → M String) (trees : List String) : M Nat := fun st =>
  match st.objmap with
  | some _ => .ok (1, st)
  | none =>
      (mbind (mmapM rr trees) fun _ => mpure 0) { st with objmap := some [] }

/-- TreeFilter.filter_branch (lines 201-207): runs the external
git filter-branch commit rewriter over the refs, re-emitting each commit with
its RootMap-resolved tree.  Modelled as recording that the sequential commit
phase ran; the Python function returns None, an exit status of 0. -/
def filter_branch (_refs : List String) : M Nat := fun st =>
  .ok (0, { st with branchRan := true })

/-- TreeFilter.main, the branch taking history references (lines 141-149):
returns filter_tree(trees) or filter_branch(refs), where the Python or
evaluates filter_branch only when filter_tree returned the falsy 0.  The
deduplicated sorted tree list obtained from git log is the trees argument. -/
def mainWithRefs (rr : String → M String) (trees refs : List String) : M Nat :=
  mbind (filter_tree rr trees) fun code =>
  if code = 0 then filter_branch refs else mpure code

/-- Constructor state of Dir2Mod (dir2mod.py lines 26-33): the watched folder
path already split on slashes, the submodule url and the submodule name
(defaulting to the folder string).  The treemap directory is part of Env. -/
structure Dir2Mod where
  folder : List String
  url : String
  name : String
deriving DecidableEq, Repr

namespace Dir2Mod

/-- Dir2Mod.depends (lines 35-36): content-and-location keying, dropping mode,
kind and name. -/
def depends (obj : Object) : String × List String := (obj.sha1, obj.path)

/-- TreeFilter._hash applied to the values dir2mod stores into its side
tables: an Object hashes by its depends key, None hashes as itself. -/
def hashOf (p : Option Object) : HashKey := p.map depends

def setHasFolder (k : HashKey) : M Unit := fun st =>
  .ok ((), { st with hasFolder := st.hasFolder ++ [k] })

def getHasFolder (k : HashKey) : M Bool := fun st =>
  .ok (decide (k ∈ st.hasFolder), st)

def setHasGitmod (k : HashKey) : M Unit := fun st =>
  .ok ((), { st with hasGitmod := st.hasGitmod ++ [k] })

def getHasGitmod (k : HashKey) : M Bool := fun st =>
  .ok (decide (k ∈ st.hasGitmod), st)

/-- Dir2Mod.gitmodules_file (lines 68-76): text is the prior blob content when
a hash is given (Python: sha1 and read_blob(sha1) or "", so a falsy hash or
falsy content yields the empty string); one submodule record naming the
folder path and url is appended to it and the result is written as a new blob
named .gitmodules. -/
def gitmodules_file (cfg : Dir2Mod) (env : Env) (sha1 : Option String) : M PyEntry :=
  let text := match sha1 with
    | none => ""
    | some s => if s = "" then "" else read_blob env s
  let record := "[submodule \"" ++ cfg.name ++ "\"]\n    path = "
      ++ String.intercalate "/" cfg.folder ++ "\n    url = " ++ cfg.url ++ "\n"
  mbind (write_blob env (text ++ record)) fun h =>
  mpure (PyEntry.pyTuple ⟨"100644", "blob", h, ".gitmodules"⟩)

/-- Dir2Mod.rewrite_file (lines 53-58).  For a blob named .gitmodules the
guard goes on to evaluate obj.parent.parent, but already the first obj.parent
access raises AttributeError (see Object.parentAttr); the remaining lines
transcribe the unreachable rest of the source.  Any other blob falls through
to the inherited rewrite_file. -/
def rewrite_file (cfg : Dir2Mod) (env : Env) (obj : Object) : M (List PyEntry) :=
  if obj.name = ".gitmodules" then
    mbind (Object.parentAttr obj) fun p =>
    mbind (match p with
           | some q => Object.parentAttr q
           | none => mthrow (.attributeError "parent")) fun pp =>
    if pp.isNone then
      mbind (setHasGitmod (hashOf p)) fun _ =>
      mbind (gitmodules_file cfg env (some obj.sha1)) fun e =>
      mpure [e]
    else TreeFilter.rewrite_file obj
  else TreeFilter.rewrite_file obj

/-- Dir2Mod.map_tree (lines 60-66): runs the inherited map_tree over the
children, then tests obj.parent is None to decide whether to append the
synthetic .gitmodules entry at the root; the obj.parent access raises
AttributeError, so the appended-entry logic that follows is unreachable. -/
def map_tree (cfg : Dir2Mod) (env : Env) (recObj : Object → M (List PyEntry))
    (obj : Object) (entries : List PyEntry) : M (List PyEntry) :=
  mbind (mapTreeWith recObj obj entries) fun new_entries =>
  mbind (Object.parentAttr obj) fun p =>
  match p with
  | none =>
      mbind (getHasFolder (some (depends obj))) fun hf =>
      mbind (getHasGitmod (some (depends obj))) fun hg =>
      if hf && !hg then
        mbind (gitmodules_file cfg env none) fun e =>
        mpure (new_entries ++ [e])
      else mpure new_entries
  | some _ => mpure new_entries

/-- Dir2Mod.rewrite_tree (lines 38-51).  On the watched folder itself it would
record the ancestor signal under the hash of obj.parent and return the single
gitlink entry, but the obj.parent access raises AttributeError first.  On a
tree whose path is an initial segment of the folder path it runs the
inherited rewrite_tree (with the overridden map_tree) and then would
propagate the ancestor signal, again through obj.parent.  Every other tree is
passed through unchanged as the single tuple obj[:], without recursing. -/
def rewrite_tree (cfg : Dir2Mod) (env : Env) (recObj : Object → M (List PyEntry))
    (obj : Object) : M (List PyEntry) :=
  if obj.path = cfg.folder then
    mbind (Object.parentAttr obj) fun p =>
    mbind (setHasFolder (hashOf p)) fun _ =>
    let commit := env.treemap obj.sha1
    mpure [PyEntry.pyTuple ⟨"160000", "commit", commit, obj.name⟩]
  else if obj.path = cfg.folder.take obj.path.length then
    mbind (rewriteTreeWith env (map_tree cfg env recObj) obj) fun ret =>
    mbind (getHasFolder (some (depends obj))) fun hf =>
    if hf then
      mbind (Object.parentAttr obj) fun p =>
      mbind (setHasFolder (hashOf p)) fun _ =>
      mpure ret
    else mpure ret
  else mpure [PyEntry.pyTuple obj.toEntry]

/-- The inherited rewrite_object dispatch with the Dir2Mod overrides bound. -/
def rewrite_object (cfg : Dir2Mod) (env : Env) : Nat → Object → M (List PyEntry)
  | 0, _ => mthrow .outOfFuel
  | fuel + 1, obj =>
      if obj.kind = "blob" then rewrite_file cfg env obj
      else rewrite_tree cfg env (rewrite_object cfg env fuel) obj

/-- The inherited rewrite_root with the Dir2Mod rewrite_object bound. -/
def rewrite_root (cfg : Dir2Mod) (env : Env) (fuel : Nat) (sha1 : String) : M String :=
  rewriteRootWith (rewrite_object cfg env fuel) sha1

end Dir2Mod

/-- The all-empty initial state: no logs, no objmap directory, empty side
tables, commit rewriter not run. -/
def st0 : St := ⟨[], [], [], none, [], [], false⟩

/-- Test store for the identity-preservation claim: a tree T holding a single
blob entry that the default policy leaves untouched. -/
def env1 : Env :=
  { readTree := fun s => if s = "T" then [⟨"100644", "blob", "B", "f"⟩] else []
    readBlob := fun _ => ""
    hashTree := fun _ => "W"
    hashBlob := fun _ => "Y"
    treemap := fun _ => "" }

/-- The root Object that rewrite_root builds for hash T. -/
def rootT : Object := ⟨"040000", "tree", "T", "", []⟩

/-- The state after the single read_tree call on T. -/
def st1 : St := { st0 with treeReads := ["T"] }

/-- Test store for the canonical-diffing claim: a tree T3 with two blob
entries carrying distinct content hashes. -/
def env3 : Env :=
  { readTree := fun s =>
      if s = "T3" then [⟨"100644", "blob", "a", "fa"⟩, ⟨"100644", "blob", "b", "fb"⟩]
      else []
    readBlob := fun _ => ""
    hashTree := fun _ => "W3"
    hashBlob := fun _ => "Y3"
    treemap := fun _ => "" }

/-- A policy override of map_tree (an explicit value for the mt argument of
rewriteTreeWith): it keeps every child entry value unchanged but returns the
entries in reversed declared order and, as every rewrite operation does,
tuple-tagged. -/
def reorderPolicy : Object → List PyEntry → M (List PyEntry) :=
  fun _ es => mpure ((es.reverse).map fun e => PyEntry.pyTuple e.val)

def rootT3 : Object := ⟨"040000", "tree", "T3", "", []⟩

def st3 : St := { st0 with treeReads := ["T3"] }

/-- Dir2Mod instance watching folder sub, for the transform-and-signal
scenario. -/
def cfg4 : Dir2Mod := ⟨["sub"], "http://x", "sub"⟩

/-- Store for the transform-and-signal scenario: root R holds the watched
subtree sub next to an ordinary blob, and the treemap resolves the subtree
hash to commit C. -/
def env4 : Env :=
  { readTree := fun s =>
      if s = "R" then [⟨"040000", "tree", "S", "sub"⟩, ⟨"100644", "blob", "B4", "a.txt"⟩]
      else if s = "S" then [⟨"100644", "blob", "B5", "inner.txt"⟩]
      else []
    readBlob := fun _ => ""
    hashTree := fun _ => "W4"
    hashBlob := fun _ => "Y4"
    treemap := fun _ => "C" }

/-- Dir2Mod instance for the append-not-replace scenario. -/
def cfg5 : Dir2Mod := ⟨["sub"], "u5", "sub"⟩

/-- Store for the append-not-replace scenario: root R5 already holds a
.gitmodules blob with prior content X next to the watched subtree. -/
def env5 : Env :=
  { readTree := fun s =>
      if s = "R5" then [⟨"100644", "blob", "G", ".gitmodules"⟩, ⟨"040000", "tree", "S5", "sub"⟩]
      else []
    readBlob := fun s => if s = "G" then "X" else ""
    hashTree := fun _ => "W5"
    hashBlob := fun _ => "H5"
    treemap := fun _ => "C5" }

/-- Two distinct nodes with equal Dir2Mod dependency key: same content hash
and path, different mode and name. -/
def cacheDemoA : Object := ⟨"100644", "blob", "s", "n1", ["p"]⟩

def cacheDemoB : Object := ⟨"100755", "blob", "s", "n2", ["p"]⟩

/-- A wrapped operation whose raw result depends on the node name, so that
the cache visibly decides which result both callers observe. -/
def cacheDemoFunc : Object → List String := fun o => [o.name]

def cacheDemoInit : CacheSt (String × List String) (List String) := ⟨[], 0⟩

/-- A concrete worker for the scheduler witnesses. -/
def rr1 : String → M String := TreeFilter.rewrite_root env1 2

/-- Startup state in which the objmap directory pre-exists with one record. -/
def stC6 : St := { st0 with objmap := some [("r0", "n0")] }

/-- Startup state in which the objmap directory pre-exists but is empty. -/
def stC10 : St := { st0 with objmap := some [] }

/-- A blob node outside any watched path, for the singleton-shape witness. -/
def obj8 : Object := ⟨"100644", "blob", "B8", "f8", ["f8"]⟩

def cfg8 : Dir2Mod := ⟨["sub8"], "u8", "n8"⟩

def env8 : Env :=
  { readTree := fun _ => []
    readBlob := fun _ => ""
    hashTree := fun _ => "W8"
    hashBlob := fun _ => "Y8"
    treemap := fun _ => "" }

/-- Dir2Mod instance watching libs/foo, for the off-path pass-through
witness. -/
def cfg9 : Dir2Mod := ⟨["libs", "foo"], "u9", "n9"⟩

def env9 : Env :=
  { readTree := fun _ => []
    readBlob := fun _ => ""
    hashTree := fun _ => "W9"
    hashBlob := fun _ => "Y9"
    treemap := fun _ => "" }

/-- A tree node whose path zzz is not an initial segment of libs/foo. -/
def obj9 : Object := ⟨"040000", "tree", "T9", "zzz", ["zzz"]⟩

def recObj9 : Object → M (List PyEntry) := fun _ => mpure []

/-- A nested .gitmodules blob at libs/.gitmodules: a child of the on-path
tree libs, itself off the path from the root to the watched folder libs/foo,
and not at the top level. -/
def objC9nested : Object := ⟨"100644", "blob", "G9", ".gitmodules", ["libs", ".gitmodules"]⟩

/-- Inversion of a successful bind: the first computation succeeded and the
continuation ran from its state. -/
theorem mbind_ok {α β : Type} {x : M α} {f : α → M β} {st : St} {b : β} {st' : St}
    (h : mbind x f st = .ok (b, st')) :
    ∃ a st₁, x st = .ok (a, st₁) ∧ f a st₁ = .ok (b, st') := by
  unfold mbind at h
  cases hx : x st with
  | error e => rw [hx] at h; cases h
  | ok p =>
      obtain ⟨a, st₁⟩ := p
      rw [hx] at h
      exact ⟨a, st₁, rfl, h⟩

/-- Inversion of a failed bind: either the first computation failed, or it
succeeded and the continuation failed. -/
theorem mbind_error {α β : Type} {x : M α} {f : α → M β} {st : St} {e : PyErr}
    (h : mbind x f st = .error e) :
    x st = .error e ∨ ∃ a st₁, x st = .ok (a, st₁) ∧ f a st₁ = .error e := by
  unfold mbind at h
  cases hx : x st with
  | error e' =>
      rw [hx] at h
      injection h with he
      left
      rw [he]
  | ok p =>
      obtain ⟨a, st₁⟩ := p
      rw [hx] at h
      exact .inr ⟨a, st₁, rfl, h⟩

theorem mpure_ok {α : Type} {a b : α} {st st' : St} (h : mpure a st = .ok (b, st')) :
    a = b ∧ st = st' := by
  simp [mpure] at h
  exact h

/-- Whatever map_tree produced, a successful rewrite_tree body returns one
tuple carrying the original mode, kind and name, with some resulting hash. -/
theorem rewriteTreeWith_ok_shape {env : Env} {mt : Object → List PyEntry → M (List PyEntry)}
    {obj : Object} {st : St} {l : List PyEntry} {st' : St}
    (h : rewriteTreeWith env mt obj st = .ok (l, st')) :
    ∃ s, l = [PyEntry.pyTuple ⟨obj.mode, obj.kind, s, obj.name⟩] := by
  unfold rewriteTreeWith at h
  obtain ⟨raw, st₁, h₁, h⟩ := mbind_ok h
  obtain ⟨mapped, st₂, h₂, h⟩ := mbind_ok h
  obtain ⟨s, st₃, h₃, h⟩ := mbind_ok h
  exact ⟨s, ((mpure_ok h).1).symm⟩

/-- A successful default rewrite_object returns one tuple preserving the
mode, kind and name of the node, changing at most the hash. -/
theorem tf_rewrite_object_ok_shape (env : Env) (fuel : Nat) {obj : Object} {st : St}
    {l : List PyEntry} {st' : St}
    (h : TreeFilter.rewrite_object env fuel obj st = .ok (l, st')) :
    ∃ s, l = [PyEntry.pyTuple ⟨obj.mode, obj.kind, s, obj.name⟩] := by
  cases fuel with
  | zero => simp [TreeFilter.rewrite_object, mthrow] at h
  | succ fuel =>
      unfold TreeFilter.rewrite_object at h
      revert h
      split <;> intro h
      · exact ⟨obj.sha1, ((mpure_ok h).1).symm⟩
      · exact rewriteTreeWith_ok_shape h

/-- A successful Dir2Mod rewrite_file returns the blob entry unchanged (the
.gitmodules branch cannot return, it fails on the parent access). -/
theorem d2m_rewrite_file_ok (cfg : Dir2Mod) (env : Env) {obj : Object} {st : St}
    {l : List PyEntry} {st' : St}
    (h : Dir2Mod.rewrite_file cfg env obj st = .ok (l, st')) :
    l = [PyEntry.pyTuple obj.toEntry] := by
  unfold Dir2Mod.rewrite_file at h
  revert h
  split <;> intro h
  · obtain ⟨p, st₁, h₁, _⟩ := mbind_ok h
    simp [Object.parentAttr, mthrow] at h₁
  · exact ((mpure_ok h).1).symm

/-- A successful Dir2Mod rewrite_tree returns exactly one entry. -/
theorem d2m_rewrite_tree_ok (cfg : Dir2Mod) (env : Env)
    (recObj : Object → M (List PyEntry)) {obj : Object} {st : St}
    {l : List PyEntry} {st' : St}
    (h : Dir2Mod.rewrite_tree cfg env recObj obj st = .ok (l, st')) :
    l.length = 1 := by
  unfold Dir2Mod.rewrite_tree at h
  revert h
  split <;> intro h
  · obtain ⟨p, st₁, h₁, _⟩ := mbind_ok h
    simp [Object.parentAttr, mthrow] at h₁
  · revert h
    split <;> intro h
    · obtain ⟨ret, st₁, h₁, h₂⟩ := mbind_ok h
      obtain ⟨s, rfl⟩ := rewriteTreeWith_ok_shape h₁
      obtain ⟨hf, st₂, h₃, h₄⟩ := mbind_ok h₂
      revert h₄
      split <;> intro h₄
      · obtain ⟨p, st₃, h₅, _⟩ := mbind_ok h₄
        simp [Object.parentAttr, mthrow] at h₅
      · rw [← (mpure_ok h₄).1]
        rfl
    · rw [← (mpure_ok h).1]
      rfl

/-- A successful Dir2Mod rewrite_object returns exactly one entry. -/
theorem d2m_rewrite_object_ok (cfg : Dir2Mod) (env : Env) (fuel : Nat) {obj : Object}
    {st : St} {l : List PyEntry} {st' : St}
    (h : Dir2Mod.rewrite_object cfg env fuel obj st = .ok (l, st')) :
    l.length = 1 := by
  cases fuel with
  | zero => simp [Dir2Mod.rewrite_object, mthrow] at h
  | succ fuel =>
      unfold Dir2Mod.rewrite_object at h
      revert h
      split <;> intro h
      · rw [d2m_rewrite_file_ok cfg env h]
        rfl
      · exact d2m_rewrite_tree_ok cfg env _ h

/-- mmapM only fails with an error its argument can produce. -/
theorem mmapM_ne {α β : Type} {f : α → M β} {bad : PyErr}
    (hf : ∀ a st, f a st ≠ .error bad) :
    ∀ (l : List α) (st : St), mmapM f l st ≠ .error bad := by
  intro l
  induction l with
  | nil =>
      intro st h
      simp [mmapM, mpure] at h
  | cons a as ih =>
      intro st h
      simp only [mmapM] at h
      rcases mbind_error h with h' | ⟨b, st₁, _, h'⟩
      · exact hf a st h'
      · rcases mbind_error h' with h'' | ⟨bs, st₂, _, h''⟩
        · exact ih st₁ h''
        · simp [mpure] at h''

/-- The default map_tree body only fails with an error the child rewrite can
produce. -/
theorem mapTreeWith_ne {recObj : Object → M (List PyEntry)} {bad : PyErr}
    (hrec : ∀ o st, recObj o st ≠ .error bad) :
    ∀ (obj : Object) (entries : List PyEntry) (st : St),
      mapTreeWith recObj obj entries st ≠ .error bad := by
  intro obj entries st h
  unfold mapTreeWith at h
  rcases mbind_error h with h' | ⟨ls, st₁, _, h'⟩
  · exact mmapM_ne (fun a st => hrec _ st) entries st h'
  · simp [mpure] at h'

/-- The rewrite_tree body only fails with an error map_tree can produce. -/
theorem rewriteTreeWith_ne {env : Env} {mt : Object → List PyEntry → M (List PyEntry)}
    {bad : PyErr} (hmt : ∀ o es st, mt o es st ≠ .error bad) :
    ∀ (obj : Object) (st : St), rewriteTreeWith env mt obj st ≠ .error bad := by
  intro obj st h
  unfold rewriteTreeWith at h
  rcases mbind_error h with h' | ⟨raw, st₁, _, h'⟩
  · simp [read_tree] at h'
  · rcases mbind_error h' with h'' | ⟨mapped, st₂, _, h''⟩
    · exact hmt _ _ _ h''
    · rcases mbind_error h'' with h₃ | ⟨s, st₃, _, h₃⟩
      · revert h₃
        split <;> intro h₃
        · simp [write_tree] at h₃
        · simp [mpure] at h₃
      · simp [mpure] at h₃

/-- The default rewrite_object never raises ValueError. -/
theorem tf_rewrite_object_ne_valueError (env : Env) :
    ∀ (fuel : Nat) (obj : Object) (st : St),
      TreeFilter.rewrite_object env fuel obj st ≠ .error .valueError := by
  intro fuel
  induction fuel with
  | zero =>
      intro obj st h
      simp [TreeFilter.rewrite_object, mthrow] at h
  | succ fuel ih =>
      intro obj st h
      unfold TreeFilter.rewrite_object at h
      revert h
      split <;> intro h
      · simp [TreeFilter.rewrite_file, mpure] at h
      · exact rewriteTreeWith_ne (mapTreeWith_ne fun o st => ih o st) obj st h

/-- Dir2Mod rewrite_file never raises ValueError (its failures are the
AttributeError on the parent access). -/
theorem d2m_rewrite_file_ne_valueError (cfg : Dir2Mod) (env : Env) :
    ∀ (obj : Object) (st : St),
      Dir2Mod.rewrite_file cfg env obj st ≠ .error .valueError := by
  intro obj st h
  unfold Dir2Mod.rewrite_file at h
  revert h
  split <;> intro h
  · rcases mbind_error h with h' | ⟨p, st₁, h₁, _⟩
    · simp [Object.parentAttr, mthrow] at h'
    · simp [Object.parentAttr, mthrow] at h₁
  · simp [TreeFilter.rewrite_file, mpure] at h

/-- Dir2Mod map_tree never raises ValueError when the child rewrite does
not. -/
theorem d2m_map_tree_ne_valueError (cfg : Dir2Mod) (env : Env)
    {recObj : Object → M (List PyEntry)}
    (hrec : ∀ o st, recObj o st ≠ .error .valueError) :
    ∀ (obj : Object) (entries : List PyEntry) (st : St),
      Dir2Mod.map_tree cfg env recObj obj entries st ≠ .error .valueError := by
  intro obj entries st h
  unfold Dir2Mod.map_tree at h
  rcases mbind_error h with h' | ⟨ne, st₁, _, h'⟩
  · exact mapTreeWith_ne hrec obj entries st h'
  · rcases mbind_error h' with h'' | ⟨p, st₂, h₂, _⟩
    · simp [Object.parentAttr, mthrow] at h''
    · simp [Object.parentAttr, mthrow] at h₂

/-- Dir2Mod rewrite_tree never raises ValueError when the child rewrite does
not. -/
theorem d2m_rewrite_tree_ne_valueError (cfg : Dir2Mod) (env : Env)
    {recObj : Object → M (List PyEntry)}
    (hrec : ∀ o st, recObj o st ≠ .error .valueError) :
    ∀ (obj : Object) (st : St),
      Dir2Mod.rewrite_tree cfg env recObj obj st ≠ .error .valueError := by
  intro obj st h
  unfold Dir2Mod.rewrite_tree at h
  revert h
  split <;> intro h
  · rcases mbind_error h with h' | ⟨p, st₁, h₁, _⟩
    · simp [Object.parentAttr, mthrow] at h'
    · simp [Object.parentAttr, mthrow] at h₁
  · revert h
    split <;> intro h
    · rcases mbind_error h with h' | ⟨ret, st₁, _, h'⟩
      · exact rewriteTreeWith_ne (d2m_map_tree_ne_valueError cfg env hrec) obj st h'
      · rcases mbind_error h' with h'' | ⟨hf, st₂, _, h''⟩
        · simp [Dir2Mod.getHasFolder] at h''
        · revert h''
          split <;> intro h''
          · rcases mbind_error h'' with h₃ | ⟨p, st₃, h₃, _⟩
            · simp [Object.parentAttr, mthrow] at h₃
            · simp [Object.parentAttr, mthrow] at h₃
          · simp [mpure] at h''
    · simp [mpure] at h

/-- Dir2Mod rewrite_object never raises ValueError. -/
theorem d2m_rewrite_object_ne_valueError (cfg : Dir2Mod) (env : Env) :
    ∀ (fuel : Nat) (obj : Object) (st : St),
      Dir2Mod.rewrite_object cfg env fuel obj st ≠ .error .valueError := by
  intro fuel
  induction fuel with
  | zero =>
      intro obj st h
      simp [Dir2Mod.rewrite_object, mthrow] at h
  | succ fuel ih =>
      intro obj st h
      unfold Dir2Mod.rewrite_object at h
      revert h
      split <;> intro h
      · exact d2m_rewrite_file_ne_valueError cfg env obj st h
      · exact d2m_rewrite_tree_ne_valueError cfg env (fun o st => ih o st) obj st h

/-- rewrite_root cannot fail at the single-element unpacking when the
dispatched rewrite_object always returns singletons and never raises
ValueError itself. -/
theorem rewriteRootWith_ne_valueError {recObj : Object → M (List PyEntry)} {sha1 : String}
    (hshape : ∀ st l st', recObj ⟨"040000", "tree", sha1, "", []⟩ st = .ok (l, st') →
        l.length = 1)
    (hne : ∀ st, recObj ⟨"040000", "tree", sha1, "", []⟩ st ≠ .error .valueError) :
    ∀ st, rewriteRootWith recObj sha1 st ≠ .error .valueError := by
  intro st h
  unfold rewriteRootWith at h
  rcases mbind_error h with h' | ⟨res, st₁, hok, h'⟩
  · exact hne st h'
  · have hlen := hshape st res st₁ hok
    match res, hlen with
    | [e], _ =>
        rcases mbind_error h' with h'' | ⟨u, st₂, _, h''⟩
        · unfold writeObjmapEntry at h''
          revert h''
          cases st₁.objmap <;> intro h'' <;> simp at h''
        · simp [mpure] at h''

/-- Claim C1, refuted on the code.  In store env1 the tree T holds one blob
entry that the default policy maps to an identical value (first and second
conjuncts: the map_tree output equals the original sorted entries in value),
so the claim demands that rewrite_tree return hash T and make no write_tree
call.  The code instead calls write_tree (third and fourth conjuncts: the
write log of the final state holds the serialized entries) and returns
whatever hash the store assigns, because the entries parsed by read_tree are
Python lists while the rewritten ones are tuples, so the equality test of
rewrite_tree line 110 never succeeds on a nonempty tree. -/
theorem c1_identity_preservation_spurious_write :
    (mapTreeWith (TreeFilter.rewrite_object env1 1) rootT
        (sortBySha ((env1.readTree "T").map PyEntry.pyList)) st1
      = .ok ([PyEntry.pyTuple ⟨"100644", "blob", "B", "f"⟩], st1))
    ∧ ([PyEntry.pyTuple ⟨"100644", "blob", "B", "f"⟩].map PyEntry.val
      = (sortBySha ((env1.readTree "T").map PyEntry.pyList)).map PyEntry.val)
    ∧ (TreeFilter.rewrite_object env1 2 rootT st0
      = .ok ([PyEntry.pyTuple ⟨"040000", "tree", "W", ""⟩],
             { st1 with treeWrites := [[⟨"100644", "blob", "B", "f"⟩]] }))
    ∧ ({ st1 with treeWrites := [[⟨"100644", "blob", "B", "f"⟩]] }).treeWrites
        ≠ st0.treeWrites := by
  refine ⟨by decide, by decide, by decide, by decide⟩

/-- Claim C2: two calls through the cached wrapper whose arguments share one
dependency key run the wrapped function effectively once and observe equal
results: the second call returns the value of the first and leaves the cache
untouched, and when the key was fresh the execution counter rose by exactly
one on the first call. -/
theorem c2_cached_single_computation {κ ρ : Type} [DecidableEq κ]
    (func : Object → ρ) (keyOf : Object → κ) (a₁ a₂ : Object) (c : CacheSt κ ρ)
    (hkey : keyOf a₁ = keyOf a₂) :
    (cachedCall func keyOf a₂ (cachedCall func keyOf a₁ c).2).1
      = (cachedCall func keyOf a₁ c).1
    ∧ (cachedCall func keyOf a₂ (cachedCall func keyOf a₁ c).2).2
      = (cachedCall func keyOf a₁ c).2
    ∧ (lookupKey (keyOf a₁) c.entries = none →
        (cachedCall func keyOf a₁ c).2.execs = c.execs + 1) := by
  cases hl : lookupKey (keyOf a₁) c.entries with
  | some r =>
      have e₁ : cachedCall func keyOf a₁ c = (r, c) := by
        unfold cachedCall
        rw [hl]
      have e₂ : cachedCall func keyOf a₂ c = (r, c) := by
        unfold cachedCall
        rw [← hkey, hl]
      refine ⟨?_, ?_, fun hnone => ?_⟩
      · rw [e₁]
        exact congrArg Prod.fst e₂
      · rw [e₁]
        exact congrArg Prod.snd e₂
      · cases hnone
  | none =>
      have e₁ : cachedCall func keyOf a₁ c
          = (func a₁, ⟨(keyOf a₁, func a₁) :: c.entries, c.execs + 1⟩) := by
        unfold cachedCall
        rw [hl]
      have e₂ : cachedCall func keyOf a₂
            (⟨(keyOf a₁, func a₁) :: c.entries, c.execs + 1⟩ : CacheSt κ ρ)
          = (func a₁, ⟨(keyOf a₁, func a₁) :: c.entries, c.execs + 1⟩) := by
        unfold cachedCall
        rw [← hkey]
        simp [lookupKey]
      simp [e₁, e₂]

/-- Witness for C2: two distinct nodes (different mode and name) sharing the
Dir2Mod dependency key (same hash and path); starting from the empty cache,
the wrapped function runs once and both calls return its result. -/
theorem c2_cached_single_computation_witness :
    Dir2Mod.depends cacheDemoA = Dir2Mod.depends cacheDemoB
    ∧ (cachedCall cacheDemoFunc Dir2Mod.depends cacheDemoB
        (cachedCall cacheDemoFunc Dir2Mod.depends cacheDemoA cacheDemoInit).2).1
      = (cachedCall cacheDemoFunc Dir2Mod.depends cacheDemoA cacheDemoInit).1
    ∧ (cachedCall cacheDemoFunc Dir2Mod.depends cacheDemoB
        (cachedCall cacheDemoFunc Dir2Mod.depends cacheDemoA cacheDemoInit).2).2
      = (cachedCall cacheDemoFunc Dir2Mod.depends cacheDemoA cacheDemoInit).2
    ∧ (cachedCall cacheDemoFunc Dir2Mod.depends cacheDemoA cacheDemoInit).2.execs
      = cacheDemoInit.execs + 1 := by
  have h := c2_cached_single_computation cacheDemoFunc Dir2Mod.depends
    cacheDemoA cacheDemoB cacheDemoInit (by decide)
  exact ⟨by decide, h.1, h.2.1, h.2.2 (by decide)⟩

/-- Claim C3, refuted on the code.  In store env3 the tree T3 holds two blob
entries with distinct hashes; the policy value reorderPolicy returns the same
entry values in reversed declared order (first conjunct), a permutation of
the originals (second conjunct), so the claim demands that rewrite_tree
treat the tree as unchanged, returning hash T3 without writing.  The code
instead writes a new tree and returns the hash the store assigns (third and
fourth conjuncts): the entries parsed by read_tree are Python lists while
every rewritten entry is a tuple, so even after the hash sort canonicalizes
the order the comparison fails and the tree counts as changed. -/
theorem c3_canonical_diffing_reorder_written :
    (reorderPolicy rootT3 (sortBySha ((env3.readTree "T3").map PyEntry.pyList)) st3
      = .ok ([PyEntry.pyTuple ⟨"100644", "blob", "b", "fb"⟩,
              PyEntry.pyTuple ⟨"100644", "blob", "a", "fa"⟩], st3))
    ∧ ([PyEntry.pyTuple ⟨"100644", "blob", "b", "fb"⟩,
        PyEntry.pyTuple ⟨"100644", "blob", "a", "fa"⟩].map PyEntry.val).Perm
        (((env3.readTree "T3").map PyEntry.pyList).map PyEntry.val)
    ∧ (rewriteTreeWith env3 reorderPolicy rootT3 st0
      = .ok ([PyEntry.pyTuple ⟨"040000", "tree", "W3", ""⟩],
             { st3 with treeWrites := [[⟨"100644", "blob", "a", "fa"⟩,
                                        ⟨"100644", "blob", "b", "fb"⟩]] }))
    ∧ ({ st3 with treeWrites := [[⟨"100644", "blob", "a", "fa"⟩,
                                  ⟨"100644", "blob", "b", "fb"⟩]] }).treeWrites ≠ [] := by
  refine ⟨by decide, List.Perm.swap _ _ _, by decide, by decide⟩

/-- Claim C4, code bug.  Store env4: root R holds the watched subtree sub
(first conjunct) and the treemap resolves its hash to commit C (second
conjunct), so the claim expects the rewrite to deliver the gitlink entry and
the root-level metadata entry.  The run instead dies with AttributeError:
when rewrite_tree reaches the folder node (dir2mod.py line 41), and likewise
when map_tree inspects the root (line 62), the code reads obj.parent, an
attribute the Object class never defines or assigns. -/
theorem c4_dir2mod_folder_replacement_crashes :
    (⟨"040000", "tree", "S", "sub"⟩ : Entry) ∈ env4.readTree "R"
    ∧ env4.treemap "S" = "C"
    ∧ Dir2Mod.rewrite_root cfg4 env4 3 "R" st0 = .error (.attributeError "parent") := by
  refine ⟨by decide, by decide, by decide⟩

/-- Claim C5, code bug.  Store env5: root R5 already holds a .gitmodules blob
with prior content X (first and second conjuncts).  The helper
gitmodules_file does append, not replace: fed the prior hash, it writes a
blob consisting of X followed by the new submodule record (third conjunct).
But the path that would invoke it never runs: rewrite_file reads obj.parent
on the .gitmodules blob (dir2mod.py line 55), an attribute the Object class
never defines, so the whole rewrite dies with AttributeError (fourth
conjunct). -/
theorem c5_dir2mod_gitmodules_append_crashes :
    (⟨"100644", "blob", "G", ".gitmodules"⟩ : Entry) ∈ env5.readTree "R5"
    ∧ env5.readBlob "G" = "X"
    ∧ (Dir2Mod.gitmodules_file cfg5 env5 (some "G") st0
      = .ok (PyEntry.pyTuple ⟨"100644", "blob", "H5", ".gitmodules"⟩,
             { st0 with blobWrites :=
                ["X[submodule \"sub\"]\n    path = sub\n    url = u5\n"] }))
    ∧ Dir2Mod.rewrite_root cfg5 env5 3 "R5" st0 = .error (.attributeError "parent") := by
  refine ⟨by decide, by decide, by decide, by decide⟩

/-- Claim C6: when the objmap directory pre-exists and is non-empty at
startup, filter_tree returns the conflict result 1 with the state unchanged:
no tree is listed or written, and the pre-existing RootMap records are left
exactly as they were. -/
theorem c6_filter_tree_aborts_on_nonempty_objmap
    (rr : String → M String) (trees : List String) (st : St)
    (l : List (String × String)) (hobj : st.objmap = some l) (hne : l ≠ []) :
    filter_tree rr trees st = .ok (1, st) := by
  unfold filter_tree
  rw [hobj]

/-- Witness for C6: a startup state whose objmap directory holds one prior
record. -/
theorem c6_filter_tree_aborts_on_nonempty_objmap_witness :
    stC6.objmap = some [("r0", "n0")]
    ∧ ([("r0", "n0")] : List (String × String)) ≠ []
    ∧ filter_tree rr1 ["t1"] stC6 = .ok (1, stC6) :=
  ⟨rfl, by decide,
   c6_filter_tree_aborts_on_nonempty_objmap rr1 ["t1"] stC6 [("r0", "n0")] rfl (by decide)⟩

/-- Claim C7: with history references supplied, main runs the sequential
commit phase only after the parallel tree phase finished fully and
successfully.  The run of main is exactly: on a tree-phase exception the same
exception (the commit rewriter is never reached), on the conflict result 1
that result unchanged, and only on result 0 the filter_branch run from the
completed tree-phase state; the second conjunct pins down that running
filter_branch is what marks the commit rewriter as executed. -/
theorem c7_commit_phase_only_after_tree_phase
    (rr : String → M String) (trees refs : List String) (st : St) :
    (mainWithRefs rr trees refs st
      = match filter_tree rr trees st with
        | .error e => .error e
        | .ok (code, st') => if code = 0 then filter_branch refs st' else .ok (code, st'))
    ∧ filter_branch refs st = .ok (0, { st with branchRan := true }) := by
  constructor
  · unfold mainWithRefs mbind
    cases h : filter_tree rr trees st with
    | error e => rfl
    | ok p =>
        obtain ⟨code, st'⟩ := p
        by_cases hc : code = 0
        · simp [hc]
        · simp [hc, mpure]
  · rfl

/-- Claim C8: every rewrite operation that returns at all returns a list of
exactly one entry; the default rewrite_object moreover returns the tuple
carrying the original mode, kind and name with at most the hash changed; and
consequently the single-element unpacking in rewrite_root can never raise
ValueError, for the default dispatch and for the Dir2Mod dispatch alike. -/
theorem c8_rewrite_operations_singleton (cfg : Dir2Mod) (env : Env) (fuel : Nat)
    (obj : Object) (st : St) :
    (∀ l st', TreeFilter.rewrite_object env fuel obj st = .ok (l, st') →
        ∃ s, l = [PyEntry.pyTuple ⟨obj.mode, obj.kind, s, obj.name⟩])
    ∧ (∀ l st', Dir2Mod.rewrite_object cfg env fuel obj st = .ok (l, st') →
        l.length = 1)
    ∧ (∀ sha st₂, TreeFilter.rewrite_root env fuel sha st₂ ≠ .error .valueError)
    ∧ (∀ sha st₂, Dir2Mod.rewrite_root cfg env fuel sha st₂ ≠ .error .valueError) := by
  refine ⟨fun l st' h => tf_rewrite_object_ok_shape env fuel h,
          fun l st' h => d2m_rewrite_object_ok cfg env fuel h,
          fun sha st₂ => ?_, fun sha st₂ => ?_⟩
  · exact rewriteRootWith_ne_valueError
      (fun st l st' h => by
        obtain ⟨s, rfl⟩ := tf_rewrite_object_ok_shape env fuel h
        rfl)
      (fun st => tf_rewrite_object_ne_valueError env fuel _ st) st₂
  · exact rewriteRootWith_ne_valueError
      (fun st l st' h => d2m_rewrite_object_ok cfg env fuel h)
      (fun st => d2m_rewrite_object_ne_valueError cfg env fuel _ st) st₂

/-- Witness for C8: the two dispatches run on a concrete blob node, both
returning the blob unchanged as a singleton, and neither rewrite_root raises
ValueError on a concrete hash. -/
theorem c8_rewrite_operations_singleton_witness :
    (∃ s, [PyEntry.pyTuple ⟨"100644", "blob", "B8", "f8"⟩]
        = [PyEntry.pyTuple ⟨"100644", "blob", s, "f8"⟩])
    ∧ ([PyEntry.pyTuple ⟨"100644", "blob", "B8", "f8"⟩] : List PyEntry).length = 1
    ∧ TreeFilter.rewrite_root env8 1 "X8" st0 ≠ .error .valueError
    ∧ Dir2Mod.rewrite_root cfg8 env8 1 "X8" st0 ≠ .error .valueError := by
  obtain ⟨h₁, h₂, h₃, h₄⟩ := c8_rewrite_operations_singleton cfg8 env8 1 obj8 st0
  exact ⟨h₁ _ _ rfl, h₂ _ _ rfl, h₃ "X8" st0, h₄ "X8" st0⟩

/-- Claim C9, code bug.  The pass-through itself works where the name allows
it: with watched folder libs/foo, the off-path tree at zzz is returned as its
single unchanged entry with the state untouched, no child listed or
rewritten, and so is an off-path blob not named .gitmodules (first two
conjuncts).  But the claim excepts only a TOP-LEVEL .gitmodules file, and the
nested blob libs/.gitmodules, which is off the path from the root to the
watched folder and squarely inside the scope of the claim (third and fourth
conjuncts), is not passed through: rewrite_file (dir2mod.py line 55)
evaluates obj.parent on every blob named .gitmodules regardless of depth,
the attribute is never defined, and the rewrite dies with AttributeError
(last conjunct).  Under the evident intent of the guard, where
obj.parent.parent is None restricts the special case to the top level, the
nested blob would fall through to the inherited pass-through and the claim
would hold; the undefined parent attribute is the slip, the same one settled
under C4 and C5. -/
theorem c9_dir2mod_nested_gitmodules_crashes :
    Dir2Mod.rewrite_tree cfg9 env9 recObj9 obj9 st0
        = .ok ([PyEntry.pyTuple obj9.toEntry], st0)
    ∧ Dir2Mod.rewrite_file cfg9 env9 obj9 st0
        = .ok ([PyEntry.pyTuple obj9.toEntry], st0)
    ∧ objC9nested.path = ["libs", ".gitmodules"]
    ∧ objC9nested.path ≠ cfg9.folder.take objC9nested.path.length
    ∧ Dir2Mod.rewrite_file cfg9 env9 objC9nested st0
        = .error (.attributeError "parent") := by
  refine ⟨by decide, by decide, by decide, by decide, by decide⟩

/-- Claim C10: filter_tree aborts with result 1 whenever the objmap directory
exists at startup, even empty: mere existence raises FileExistsError inside
os.makedirs, and the state is returned untouched, so no tree is rewritten and
whatever mappings exist are left as they are. -/
theorem c10_filter_tree_aborts_on_existing_objmap
    (rr : String → M String) (trees : List String) (st : St)
    (l : List (String × String)) (hobj : st.objmap = some l) :
    filter_tree rr trees st = .ok (1, st) := by
  unfold filter_tree
  rw [hobj]

/-- Witness for C10: a startup state whose objmap directory exists but is
empty; the run still aborts with 1 and an unchanged state. -/
theorem c10_filter_tree_aborts_on_existing_objmap_witness :
    stC10.objmap = some []
    ∧ filter_tree rr1 ["t1"] stC10 = .ok (1, stC10) :=
  ⟨rfl, c10_filter_tree_aborts_on_existing_objmap rr1 ["t1"] stC10 [] rfl⟩

end GitFilterTree
